import Mathlib

set_option maxRecDepth 40000

/-!
Verification development for the `espin` repository.

The repository is a single teaching notebook (`lessons/pymt/cem_and_waves.ipynb`)
that drives two external simulation components — the Coastline Evolution Model
(CEM) and a wave-climate generator (Waves) — through a BMI-style interface
(`setup` / `initialize` / `update` / `update_until` / `get_value` / `set_value` /
`finalize`).  The library implementing those operations is not part of the
repository; the accompanying specification describes the intended semantics of
the generalized model-coupling harness.  Accordingly:

* The Model Handle / Registry / Driver operations below are *modelled from the
  spec* (each such definition says so in its doc comment), with the concrete
  grids, variable names, and configurations taken from the notebook.
* The notebook's own call sequences (the solo CEM loop, the coupled
  Waves+CEM loop) are embedded both as syntactic event traces and as runs of
  the spec-modelled handles.
* `avulse_river` is the one ordinary function defined in the repository; it is
  embedded directly from its source.

Numeric values are modelled by exact rationals; IEEE special values are
represented abstractly by the `FVal` type (finite / NaN / infinities), since the
spec only ever distinguishes finite values from non-finite ones.  The external
physics of both models is out of scope of the spec; each `update` takes the
physics as an explicit function argument on the variable store.
-/

/-- Abstract floating-point value: a finite rational, NaN, or an infinity. -/
inductive FVal where
  | finite (q : ℚ)
  | nan
  | inf
  | ninf
deriving DecidableEq

/-- Whether an abstract value is finite (neither NaN nor an infinity). -/
def FVal.isFinite : FVal → Bool
  | .finite _ => true
  | _ => false

/-- A dense array together with its shape, row-major order (mirrors a numpy
array as exchanged through `get_value` / `set_value`). -/
structure NdArray where
  shape : List Nat
  data : List FVal
deriving DecidableEq

/-- A scalar wrapped as a one-element array, as produced by `set_value` of a
Python scalar on a one-node grid. -/
def NdArray.scalar (q : ℚ) : NdArray :=
  { shape := [1], data := [FVal.finite q] }

/-- Modelled from the spec: a Grid Descriptor for one spatial discretization
(shape, spacing, origin of a uniform rectilinear grid). -/
structure GridInfo where
  shape : List Nat
  spacing : List ℚ
  origin : List ℚ
deriving DecidableEq

/-- Modelled from the spec: lifecycle states of a Model Handle. -/
inductive Lifecycle where
  | uninitialized
  | initialized
  | finalized
deriving DecidableEq

/-- Modelled from the spec: the error taxonomy of section 7. -/
inductive ModelError where
  | configurationError
  | lifecycleError
  | sequenceError
  | unknownVariableError
  | unknownGridError
  | shapeMismatchError
deriving DecidableEq

/-- Modelled from the spec: an error surfaced by the Coupling Driver, carrying
the originating model and the step index at which it occurred. -/
structure DriverError where
  model : String
  step : Nat
  err : ModelError
deriving DecidableEq

/-- Association-list lookup (used for variable stores and grid tables). -/
def alistLookup {α β : Type} [DecidableEq α] : List (α × β) → α → Option β
  | [], _ => none
  | (k, b) :: rest, a => if k = a then some b else alistLookup rest a

/-- Association-list update of an existing key (later duplicates untouched). -/
def alistSet {α β : Type} [DecidableEq α] : List (α × β) → α → β → List (α × β)
  | [], _, _ => []
  | (k, b) :: rest, a, b2 => if k = a then (k, b2) :: rest else (k, b) :: alistSet rest a b2

/-- A model's variable store: current value of each named variable. -/
abbrev VarStore := List (String × NdArray)

/-- Standard name of the incoming wave height input of CEM. -/
def waveHeightName : String := "sea_surface_water_wave__height"

/-- Standard name of the incoming wave period input of CEM. -/
def wavePeriodName : String := "sea_surface_water_wave__period"

/-- Standard name of the incoming wave angle input of CEM, and of the angle
output of the Waves component. -/
def waveAngleName : String := "sea_surface_water_wave__azimuth_angle_of_opposite_of_phase_velocity"

/-- Standard name of the sediment-discharge (bedload) input of CEM. -/
def qsName : String := "land_surface_water_sediment~bedload__mass_flow_rate"

/-- Standard name of the water-depth output of CEM. -/
def depthName : String := "sea_water__depth"

/-- Modelled from the spec (Variable Exchange Registry): the CEM input
variables exercised by the notebook. -/
def cemInputNames : List String :=
  [waveHeightName, wavePeriodName, waveAngleName, qsName]

/-- Modelled from the spec (Variable Exchange Registry): the CEM output
variables exercised by the notebook. -/
def cemOutputNames : List String := [depthName]

/-- Modelled from the spec (Variable Exchange Registry): the fixed map from a
CEM variable name to its grid identifier.  Per the notebook, the wave
height/period/angle scalars live on grid 0 and water depth and bedload
discharge share grid 2. -/
def cemVarGrid (n : String) : Option Nat :=
  if n = waveHeightName ∨ n = wavePeriodName ∨ n = waveAngleName then some 0
  else if n = depthName ∨ n = qsName then some 2
  else none

/-- Modelled from the spec: configuration options recognized by CEM `setup`
(number of grid rows and columns and the grid spacing, as passed by the
notebook). -/
structure CemConfig where
  number_of_rows : Int
  number_of_cols : Int
  grid_spacing : ℚ
deriving DecidableEq

/-- Modelled from the spec: `setup` validates the configuration (row/column
counts and spacing must be positive) and returns the opaque arguments later
consumed by `initialize`; invalid options fail with `ConfigurationError`. -/
def Cem.setup (cfg : CemConfig) : Except ModelError CemConfig :=
  if 0 < cfg.number_of_rows ∧ 0 < cfg.number_of_cols ∧ 0 < cfg.grid_spacing
  then .ok cfg else .error .configurationError

/-- Modelled from the spec: the state of a CEM Model Handle — lifecycle state,
grid table, variable store, and the last time supplied to `update_until`. -/
structure CemState where
  lifecycle : Lifecycle
  grids : List (Nat × GridInfo)
  vars : VarStore
  lastTime : Option ℚ
deriving DecidableEq

/-- A freshly created CEM handle, before `initialize`. -/
def CemState.new : CemState :=
  { lifecycle := .uninitialized, grids := [], vars := [], lastTime := none }

/-- The grid table a CEM handle acquires on `initialize`: grid 0 is the
one-node grid of the wave scalars, grid 2 the uniform rectilinear grid of
water depth and bedload discharge. -/
def cemGridsFor (cfg : CemConfig) : List (Nat × GridInfo) :=
  [(0, { shape := [1], spacing := [], origin := [] }),
   (2, { shape := [cfg.number_of_rows.toNat, cfg.number_of_cols.toNat],
         spacing := [cfg.grid_spacing, cfg.grid_spacing],
         origin := [0, 0] })]

/-- The variable store a CEM handle acquires on `initialize`: every registered
variable present, scalars zero and grids filled with finite zeros. -/
def cemVarsFor (cfg : CemConfig) : VarStore :=
  [(waveHeightName, NdArray.scalar 0),
   (wavePeriodName, NdArray.scalar 0),
   (waveAngleName, NdArray.scalar 0),
   (qsName, { shape := [cfg.number_of_rows.toNat, cfg.number_of_cols.toNat],
              data := List.replicate (cfg.number_of_rows.toNat * cfg.number_of_cols.toNat) (FVal.finite 0) }),
   (depthName, { shape := [cfg.number_of_rows.toNat, cfg.number_of_cols.toNat],
                 data := List.replicate (cfg.number_of_rows.toNat * cfg.number_of_cols.toNat) (FVal.finite 0) })]

/-- Modelled from the spec: `initialize` transitions Uninitialized →
Initialized, installing the grids and variable store; a second call (or a call
on a finalized handle) fails with `LifecycleError`. -/
def CemState.init (s : CemState) (args : CemConfig) : Except ModelError CemState :=
  if s.lifecycle = .uninitialized then
    .ok { lifecycle := .initialized, grids := cemGridsFor args,
          vars := cemVarsFor args, lastTime := none }
  else .error .lifecycleError

/-- Modelled from the spec: `update_until` advances the internal state (the
external physics `phys` applied to the variable store) up to time `t`; it fails
with `LifecycleError` when the handle is not Initialized and with
`SequenceError` when `t` is less than the previously supplied time. -/
def CemState.update_until (s : CemState) (phys : VarStore → VarStore) (t : ℚ) :
    Except ModelError CemState :=
  if s.lifecycle = .initialized then
    match s.lastTime with
    | some t0 =>
        if t < t0 then .error .sequenceError
        else .ok { s with vars := phys s.vars, lastTime := some t }
    | none => .ok { s with vars := phys s.vars, lastTime := some t }
  else .error .lifecycleError

/-- Modelled from the spec: `get_value` returns the current values of a named
output variable; it fails with `LifecycleError` when not Initialized and with
`UnknownVariableError` when the name is not a registered output. -/
def CemState.get_value (s : CemState) (name : String) : Except ModelError NdArray :=
  if s.lifecycle = .initialized then
    if name ∈ cemOutputNames then
      match alistLookup s.vars name with
      | some a => .ok a
      | none => .error .unknownVariableError
    else .error .unknownVariableError
  else .error .lifecycleError

/-- Modelled from the spec: `set_value` writes values into a named input
variable; it fails with `LifecycleError` when not Initialized,
`UnknownVariableError` when the name is not a registered input, and
`ShapeMismatchError` when the array shape disagrees with the variable's grid
shape (leaving the prior values unchanged — in this state-passing embedding an
error returns no new state, so the caller retains the prior handle state). -/
def CemState.set_value (s : CemState) (name : String) (arr : NdArray) :
    Except ModelError CemState :=
  if s.lifecycle = .initialized then
    if name ∈ cemInputNames then
      match cemVarGrid name with
      | some g =>
          match alistLookup s.grids g with
          | some gi =>
              if arr.shape = gi.shape then
                .ok { s with vars := alistSet s.vars name arr }
              else .error .shapeMismatchError
          | none => .error .unknownGridError
      | none => .error .unknownGridError
    else .error .unknownVariableError
  else .error .lifecycleError

/-- Modelled from the spec: `finalize` releases the internal state and
transitions to Finalized; any later call on the handle fails with
`LifecycleError`. -/
def CemState.finalize (s : CemState) : Except ModelError CemState :=
  if s.lifecycle = .initialized then
    .ok { lifecycle := .finalized, grids := s.grids, vars := [], lastTime := s.lastTime }
  else .error .lifecycleError

/-- Modelled from the spec (Registry `shapeOf`): the shape of a grid, looked up
by grid id; fails with `UnknownGridError` on a bad id. -/
def CemState.grid_shape (s : CemState) (g : Nat) : Except ModelError (List Nat) :=
  if s.lifecycle = .initialized then
    match alistLookup s.grids g with
    | some gi => .ok gi.shape
    | none => .error .unknownGridError
  else .error .lifecycleError

/-- Modelled from the spec (Registry `spacingOf`): the spacing of a grid,
looked up by grid id; fails with `UnknownGridError` on a bad id. -/
def CemState.grid_spacing (s : CemState) (g : Nat) : Except ModelError (List ℚ) :=
  if s.lifecycle = .initialized then
    match alistLookup s.grids g with
    | some gi => .ok gi.spacing
    | none => .error .unknownGridError
  else .error .lifecycleError

/-- Modelled from the spec (Registry `gridIdOf`): the grid id a variable name
maps to; fails with `UnknownVariableError` on an unregistered name. -/
def CemState.var_grid (s : CemState) (name : String) : Except ModelError Nat :=
  if s.lifecycle = .initialized then
    match cemVarGrid name with
    | some g => .ok g
    | none => .error .unknownVariableError
  else .error .lifecycleError

/-- Modelled from the spec: configuration options recognized by Waves `setup`
(`angleAsymmetry` in [-1, 1], `angleHighnessFactor` in [0, 1]). -/
structure WavesConfig where
  angle_asymmetry : ℚ
  angle_highness_factor : ℚ
deriving DecidableEq

/-- Modelled from the spec: Waves `setup` validates the configuration and
returns the opaque arguments for `initialize`. -/
def Waves.setup (cfg : WavesConfig) : Except ModelError WavesConfig :=
  if -1 ≤ cfg.angle_asymmetry ∧ cfg.angle_asymmetry ≤ 1
      ∧ 0 ≤ cfg.angle_highness_factor ∧ cfg.angle_highness_factor ≤ 1
  then .ok cfg else .error .configurationError

/-- Modelled from the spec: the state of a Waves Model Handle. -/
structure WavesState where
  lifecycle : Lifecycle
  vars : VarStore
deriving DecidableEq

/-- A freshly created Waves handle, before `initialize`. -/
def WavesState.new : WavesState :=
  { lifecycle := .uninitialized, vars := [] }

/-- Modelled from the spec: Waves `initialize`, installing the angle output
variable on its one-node grid. -/
def WavesState.init (s : WavesState) (_args : WavesConfig) : Except ModelError WavesState :=
  if s.lifecycle = .uninitialized then
    .ok { lifecycle := .initialized, vars := [(waveAngleName, NdArray.scalar 0)] }
  else .error .lifecycleError

/-- Modelled from the spec: Waves `update` advances by one step (the external
wave-climate generator `phys` applied to the variable store); fails with
`LifecycleError` when not Initialized. -/
def WavesState.update (s : WavesState) (phys : VarStore → VarStore) :
    Except ModelError WavesState :=
  if s.lifecycle = .initialized then .ok { s with vars := phys s.vars }
  else .error .lifecycleError

/-- Modelled from the spec: Waves `get_value` for its angle output. -/
def WavesState.get_value (s : WavesState) (name : String) : Except ModelError NdArray :=
  if s.lifecycle = .initialized then
    if name = waveAngleName then
      match alistLookup s.vars name with
      | some a => .ok a
      | none => .error .unknownVariableError
    else .error .unknownVariableError
  else .error .lifecycleError

/-- Modelled from the spec: Waves `finalize`. -/
def WavesState.finalize (s : WavesState) : Except ModelError WavesState :=
  if s.lifecycle = .initialized then .ok { lifecycle := .finalized, vars := [] }
  else .error .lifecycleError

/-- Embedded from the notebook source (`avulse_river`): the river mouth is
perturbed by a random draw, here made explicit as the input `d`, and then
wrapped: when `x_max` is supplied and the position reaches 200 it is reduced
by 200, and when `x_min` is supplied and the (already reduced) position is
negative it is increased by 200.  The wrap tests compare against the literal
constant 200, not against the supplied `x_min` / `x_max` bounds. -/
def avulse_river (river_x d : ℚ) (x_min x_max : Option ℚ) : ℚ :=
  let r0 := river_x + d
  let r1 := match x_max with
    | some _ => if 200 ≤ r0 then r0 - 200 else r0
    | none => r0
  match x_min with
  | some _ => if r1 < 0 then 200 + r1 else r1
  | none => r1

/-- One call made by the notebook on a model handle, recorded syntactically
(model name, operation, and for `update_until` the supplied time). -/
inductive Event where
  | setup (model : String)
  | init (model : String)
  | update (model : String)
  | updateUntil (model : String) (t : Nat)
  | getValue (model : String) (name : String)
  | setValue (model : String) (name : String)
  | finalize (model : String)
deriving DecidableEq

/-- Embedded from the notebook's coupled-run cell: the calls issued in the body
of one iteration of `for time in tqdm(range(3000))` — advance the wave model,
read its angle output, write the constant height and period and the coupled
angle and the sediment discharge into CEM, then advance CEM to `time`. -/
def coupledStepEvents (t : Nat) : List Event :=
  [.update "waves",
   .getValue "waves" waveAngleName,
   .setValue "cem" waveHeightName,
   .setValue "cem" wavePeriodName,
   .setValue "cem" waveAngleName,
   .setValue "cem" qsName,
   .updateUntil "cem" t]

/-- Embedded from the notebook's solo CEM loop cell: the calls issued in the
body of one iteration of `for time in tqdm(range(3000))` there. -/
def soloStepEvents (t : Nat) : List Event :=
  [.setValue "cem" qsName, .updateUntil "cem" t]

/-- The concatenation of the per-step event lists for steps `0, 1, ..., n-1`,
in loop order. -/
def stepsTrace (f : Nat → List Event) : Nat → List Event
  | 0 => []
  | n + 1 => stepsTrace f n ++ f n

/-- Embedded from the notebook's coupled-run cell and the plot cell after it:
set up and initialize both handles, run the 3000 coupled steps, then read the
water depth. -/
def coupledTrace : List Event :=
  [.setup "waves", .init "waves", .setup "cem", .init "cem"]
    ++ stepsTrace coupledStepEvents 3000
    ++ [.getValue "cem" depthName]

/-- Embedded from the notebook's solo CEM loop cell and the read after it. -/
def soloTrace : List Event :=
  stepsTrace soloStepEvents 3000 ++ [.getValue "cem" depthName]

/-- The times supplied to `update_until` of a given model along a trace, in
call order. -/
def updateTimes (m : String) (l : List Event) : List Nat :=
  l.filterMap fun e => match e with
    | .updateUntil m2 t => if m2 = m then some t else none
    | _ => none

/-- Embedded from the notebook's coupled-run cell: the sediment-discharge
array `qs = np.zeros(cem.grid_shape(2)); qs[0, 100] = 500`, flattened
row-major (index `0 * 200 + 100`). -/
def notebookQs : NdArray :=
  { shape := [100, 200],
    data := (List.replicate 20000 (FVal.finite 0)).set 100 (FVal.finite 500) }

/-- The configuration the notebook passes to CEM `setup`. -/
def nbCemConfig : CemConfig :=
  { number_of_rows := 100, number_of_cols := 200, grid_spacing := 200 }

/-- The configuration the notebook passes to Waves `setup`. -/
def nbWavesConfig : WavesConfig :=
  { angle_asymmetry := 0.2, angle_highness_factor := 0.5 }

/-- The Waves handle right after the notebook's `setup` + `initialize`. -/
def wavesStart : WavesState :=
  { lifecycle := .initialized, vars := [(waveAngleName, NdArray.scalar 0)] }

/-- The CEM handle right after the notebook's `setup` + `initialize`. -/
def cemStart : CemState :=
  { lifecycle := .initialized, grids := cemGridsFor nbCemConfig,
    vars := cemVarsFor nbCemConfig, lastTime := none }

/-- Embedded from the notebook's coupled-run cell, lines before the loop:
set up and initialize the wave handle, then the CEM handle. -/
def coupledStart : Except ModelError (WavesState × CemState) := do
  let wargs ← Waves.setup nbWavesConfig
  let w ← WavesState.new.init wargs
  let cargs ← Cem.setup nbCemConfig
  let c ← CemState.new.init cargs
  pure (w, c)

/-- Modelled from the spec: the Coupling Driver surfaces a component error
together with the originating model and the step index. -/
def tagE {α : Type} (m : String) (t : Nat) : Except ModelError α → Except DriverError α
  | .ok a => .ok a
  | .error e => .error { model := m, step := t, err := e }

/-- Embedded from the notebook's coupled-run loop body, driven through the
spec-modelled handles and wrapped in the spec-modelled Driver error reporting:
advance Waves, read its angle, write height 1.5, period 7.0, the coupled
angle, and the sediment discharge into CEM, then `update_until(time)` on CEM. -/
def coupledStepD (wavesPhys cemPhys : VarStore → VarStore) (qs : NdArray) (t : Nat) :
    WavesState × CemState → Except DriverError (WavesState × CemState)
  | (w, c) => do
    let w2 ← tagE "waves" t (w.update wavesPhys)
    let angle ← tagE "waves" t (w2.get_value waveAngleName)
    let c2 ← tagE "cem" t (c.set_value waveHeightName (NdArray.scalar 1.5))
    let c3 ← tagE "cem" t (c2.set_value wavePeriodName (NdArray.scalar 7))
    let c4 ← tagE "cem" t (c3.set_value waveAngleName angle)
    let c5 ← tagE "cem" t (c4.set_value qsName qs)
    let c6 ← tagE "cem" t (c5.update_until cemPhys (t : ℚ))
    pure (w2, c6)

/-- The first `n` coupled steps (times `0, ..., n-1` in order, exactly as the
notebook's `for time in tqdm(range(3000))` supplies them). -/
def runSteps (wavesPhys cemPhys : VarStore → VarStore) (qs : NdArray) (n : Nat)
    (p : WavesState × CemState) : Except DriverError (WavesState × CemState) :=
  (List.range n).foldlM (fun q t => coupledStepD wavesPhys cemPhys qs t q) p

/-- Embedded from the notebook's coupled-run cell: the full coupled run —
setups and initializations followed by the 3000 coupled steps with the
notebook's sediment-discharge array.  A setup-phase error would surface before
any step runs. -/
def coupledRun (wavesPhys cemPhys : VarStore → VarStore) :
    Except DriverError (WavesState × CemState) :=
  match coupledStart with
  | .ok p => runSteps wavesPhys cemPhys notebookQs 3000 p
  | .error e => .error { model := "driver", step := 0, err := e }

/-- Modelled from the spec (Coupling Driver, step 15 of the control flow):
after the stepping loop the Driver calls `finalize` on all handles.  The
notebook itself contains no such calls. -/
def driverFinish (p : WavesState × CemState) : Except ModelError (WavesState × CemState) := do
  let w ← p.1.finalize
  let c ← p.2.finalize
  pure (w, c)

/-- The wave handle keeps its angle output present as a one-element array:
what the coupled loop needs from the external wave generator. -/
def wavesGoodB (v : VarStore) : Bool :=
  match alistLookup v waveAngleName with
  | some a => decide (a.shape = [1])
  | none => false

/-- The CEM variable store has its water-depth variable present with the
notebook's grid shape (100, 200). -/
def depthShapeB (v : VarStore) : Bool :=
  match alistLookup v depthName with
  | some a => decide (a.shape = [100, 200])
  | none => false

/-- The CEM variable store has its water-depth variable present with every
element finite (no NaN or infinity). -/
def depthFiniteB (v : VarStore) : Bool :=
  match alistLookup v depthName with
  | some a => a.data.all FVal.isFinite
  | none => false

/-- The external wave generator keeps the angle output well-formed. -/
def preservesAngle (phys : VarStore → VarStore) : Prop :=
  ∀ v, wavesGoodB v = true → wavesGoodB (phys v) = true

/-- The external CEM physics keeps the water-depth variable on its grid shape
(one half of the spec's stability hypothesis). -/
def preservesDepthShape (phys : VarStore → VarStore) : Prop :=
  ∀ v, depthShapeB v = true → depthShapeB (phys v) = true

/-- The external CEM physics keeps the water-depth values finite (the other
half of the spec's stability hypothesis). -/
def preservesDepthFinite (phys : VarStore → VarStore) : Prop :=
  ∀ v, depthFiniteB v = true → depthFiniteB (phys v) = true

/-- The CEM variable store after the coupled step's first write (height 1.5). -/
def vars1 (v : VarStore) : VarStore :=
  alistSet v waveHeightName (NdArray.scalar 1.5)

/-- ... after the second write (period 7.0). -/
def vars2 (v : VarStore) : VarStore :=
  alistSet (vars1 v) wavePeriodName (NdArray.scalar 7)

/-- ... after the third write (the wave model's angle output `a`). -/
def vars3 (a : NdArray) (v : VarStore) : VarStore :=
  alistSet (vars2 v) waveAngleName a

/-- ... after the fourth write (the sediment discharge `qs`). -/
def vars4 (a qs : NdArray) (v : VarStore) : VarStore :=
  alistSet (vars3 a v) qsName qs

/-- The CEM variable store after one full coupled step: the four writes, then
the external physics applied by `update_until`. -/
def stepVars (cemPhys : VarStore → VarStore) (a qs : NdArray) (v : VarStore) : VarStore :=
  cemPhys (vars4 a qs v)

/-- The invariant maintained by the coupled loop: both handles stay
Initialized, the wave handle keeps a well-formed angle output, the CEM grid
table never changes, the last supplied time after `t` steps is `t - 1` (none
before the first step), and — under the stability hypotheses on the external
physics — the water-depth variable keeps its shape and stays finite. -/
def coupledInvP (cemPhys : VarStore → VarStore) (t : Nat) (p : WavesState × CemState) : Prop :=
  p.1.lifecycle = .initialized ∧ wavesGoodB p.1.vars = true ∧
  p.2.lifecycle = .initialized ∧ p.2.grids = cemGridsFor nbCemConfig ∧
  ((t = 0 ∧ p.2.lastTime = none) ∨ (∃ k : Nat, t = k + 1 ∧ p.2.lastTime = some (k : ℚ))) ∧
  (preservesDepthShape cemPhys → depthShapeB p.2.vars = true) ∧
  (preservesDepthFinite cemPhys → depthFiniteB p.2.vars = true)

/-- The CEM handle state produced by `initialize` from configuration `args`. -/
def cemInitFor (args : CemConfig) : CemState :=
  { lifecycle := .initialized, grids := cemGridsFor args,
    vars := cemVarsFor args, lastTime := none }

/-- The CEM handle state produced by `finalize` after an `initialize` with
configuration `args`. -/
def cemFinalFor (args : CemConfig) : CemState :=
  { lifecycle := .finalized, grids := cemGridsFor args,
    vars := [], lastTime := none }

/-- A Waves handle after `finalize`: Finalized, internal state released. -/
def wavesFinal : WavesState :=
  { lifecycle := .finalized, vars := [] }

/-- A CEM handle after `finalize`: Finalized, internal state released. -/
def cemFinal (c : CemState) : CemState :=
  { lifecycle := .finalized, grids := c.grids, vars := [], lastTime := c.lastTime }

/-- The CEM handle after the notebook's first `set_value` of the wave height
on the freshly initialized handle. -/
def cemStartH : CemState :=
  { cemStart with vars := vars1 cemStart.vars }

/-- The CEM handle after an `update_until(0)` with identity physics on the
freshly initialized handle. -/
def cemStartU : CemState :=
  { cemStart with lastTime := some 0 }

theorem alistLookup_alistSet_ne {α β : Type} [DecidableEq α] (v : List (α × β)) (a k : α) (b : β)
    (h : a ≠ k) : alistLookup (alistSet v a b) k = alistLookup v k := by
  induction v with
  | nil => rfl
  | cons p rest ih =>
    obtain ⟨k2, b2⟩ := p
    by_cases h2 : k2 = a
    · subst h2
      have h3 : ¬ k2 = k := fun hk => h (hk ▸ rfl)
      simp [alistSet, alistLookup, h3]
    · by_cases h3 : k2 = k
      · simp [alistSet, alistLookup, h2, h3, Ne.symm h]
      · simp [alistSet, alistLookup, h2, h3, ih]

theorem depthShapeB_alistSet (v : VarStore) (n : String) (a : NdArray) (h : n ≠ depthName) :
    depthShapeB (alistSet v n a) = depthShapeB v := by
  unfold depthShapeB
  rw [alistLookup_alistSet_ne v n depthName a h]

theorem depthFiniteB_alistSet (v : VarStore) (n : String) (a : NdArray) (h : n ≠ depthName) :
    depthFiniteB (alistSet v n a) = depthFiniteB v := by
  unfold depthFiniteB
  rw [alistLookup_alistSet_ne v n depthName a h]

theorem wavesGoodB_elim {v : VarStore} (h : wavesGoodB v = true) :
    ∃ a, alistLookup v waveAngleName = some a ∧ a.shape = [1] := by
  unfold wavesGoodB at h
  cases hl : alistLookup v waveAngleName with
  | none => rw [hl] at h; cases h
  | some a => rw [hl] at h; exact ⟨a, rfl, of_decide_eq_true h⟩

theorem depthShapeB_elim {v : VarStore} (h : depthShapeB v = true) :
    ∃ a, alistLookup v depthName = some a ∧ a.shape = [100, 200] := by
  unfold depthShapeB at h
  cases hl : alistLookup v depthName with
  | none => rw [hl] at h; cases h
  | some a => rw [hl] at h; exact ⟨a, rfl, of_decide_eq_true h⟩

theorem depthFiniteB_elim {v : VarStore} (h : depthFiniteB v = true) :
    ∃ a, alistLookup v depthName = some a ∧ a.data.all FVal.isFinite = true := by
  unfold depthFiniteB at h
  cases hl : alistLookup v depthName with
  | none => rw [hl] at h; cases h
  | some a => rw [hl] at h; exact ⟨a, rfl, h⟩

theorem CemState.set_value_ok (s : CemState) (name : String) (arr : NdArray) (g : Nat)
    (gi : GridInfo) (h1 : s.lifecycle = .initialized) (h2 : name ∈ cemInputNames)
    (h3 : cemVarGrid name = some g) (h4 : alistLookup s.grids g = some gi)
    (h5 : arr.shape = gi.shape) :
    s.set_value name arr = .ok { s with vars := alistSet s.vars name arr } := by
  simp [CemState.set_value, h1, h2, h3, h4, h5]

theorem CemState.update_until_ok (s : CemState) (phys : VarStore → VarStore) (t : ℚ)
    (h1 : s.lifecycle = .initialized)
    (h2 : ∀ t0, s.lastTime = some t0 → ¬ t < t0) :
    s.update_until phys t = .ok { s with vars := phys s.vars, lastTime := some t } := by
  unfold CemState.update_until
  rw [h1]
  cases hlt : s.lastTime with
  | none => simp
  | some t0 => simp [h2 t0 hlt]

theorem CemState.update_until_seq (s : CemState) (phys : VarStore → VarStore) (t t0 : ℚ)
    (h1 : s.lifecycle = .initialized) (h2 : s.lastTime = some t0) (h3 : t < t0) :
    s.update_until phys t = .error .sequenceError := by
  simp [CemState.update_until, h1, h2, h3]

theorem CemState.get_value_ok (s : CemState) (name : String) (a : NdArray)
    (h1 : s.lifecycle = .initialized) (h2 : name ∈ cemOutputNames)
    (h3 : alistLookup s.vars name = some a) :
    s.get_value name = .ok a := by
  simp [CemState.get_value, h1, h2, h3]

theorem WavesState.update_ok (s : WavesState) (phys : VarStore → VarStore)
    (h : s.lifecycle = .initialized) :
    s.update phys = .ok { s with vars := phys s.vars } := by
  simp [WavesState.update, h]

theorem WavesState.get_value_angle (s : WavesState) (a : NdArray)
    (h1 : s.lifecycle = .initialized) (h2 : alistLookup s.vars waveAngleName = some a) :
    s.get_value waveAngleName = .ok a := by
  simp [WavesState.get_value, h1, h2]

theorem tagE_ok_eq {α : Type} (m : String) (t : Nat) (a : α) :
    tagE m t (Except.ok a) = Except.ok a := rfl

theorem tagE_err_eq {α : Type} (m : String) (t : Nat) (e : ModelError) :
    tagE m t (Except.error e : Except ModelError α) =
      Except.error { model := m, step := t, err := e } := rfl

theorem exceptD_bind_ok {ε α β : Type} (a : α) (f : α → Except ε β) :
    (Except.ok a >>= f : Except ε β) = f a := rfl

theorem exceptD_bind_err {ε α β : Type} (e : ε) (f : α → Except ε β) :
    (Except.error e >>= f : Except ε β) = Except.error e := rfl

theorem exceptD_pure {ε α : Type} (a : α) :
    (pure a : Except ε α) = Except.ok a := rfl

theorem height_mem : waveHeightName ∈ cemInputNames := by decide

theorem period_mem : wavePeriodName ∈ cemInputNames := by decide

theorem angle_mem : waveAngleName ∈ cemInputNames := by decide

theorem qs_mem : qsName ∈ cemInputNames := by decide

theorem depth_out : depthName ∈ cemOutputNames := by decide

theorem height_ne_depth : waveHeightName ≠ depthName := by decide

theorem period_ne_depth : wavePeriodName ≠ depthName := by decide

theorem angle_ne_depth : waveAngleName ≠ depthName := by decide

theorem qs_ne_depth : qsName ≠ depthName := by decide

theorem varGrid_height : cemVarGrid waveHeightName = some 0 := rfl

theorem varGrid_period : cemVarGrid wavePeriodName = some 0 := rfl

theorem varGrid_angle : cemVarGrid waveAngleName = some 0 := rfl

theorem varGrid_qs : cemVarGrid qsName = some 2 := rfl

theorem varGrid_depth : cemVarGrid depthName = some 2 := rfl

theorem gridLookup0 : alistLookup (cemGridsFor nbCemConfig) 0 =
    some { shape := [1], spacing := [], origin := [] } := rfl

theorem gridLookup2 : alistLookup (cemGridsFor nbCemConfig) 2 =
    some { shape := [100, 200], spacing := [200, 200], origin := [0, 0] } := rfl

theorem coupledStepD_eq (wavesPhys cemPhys : VarStore → VarStore) (t : Nat)
    (w : WavesState) (c : CemState) (a : NdArray)
    (h1 : w.lifecycle = .initialized)
    (ha : alistLookup (wavesPhys w.vars) waveAngleName = some a)
    (haShape : a.shape = [1])
    (h3 : c.lifecycle = .initialized) (h4 : c.grids = cemGridsFor nbCemConfig)
    (h5 : ∀ t0, c.lastTime = some t0 → ¬ (t : ℚ) < t0) :
    coupledStepD wavesPhys cemPhys notebookQs t (w, c) =
      .ok ({ w with vars := wavesPhys w.vars },
           { c with vars := stepVars cemPhys a notebookQs c.vars,
                    lastTime := some (t : ℚ) }) := by
  have e1 : w.update wavesPhys = .ok { w with vars := wavesPhys w.vars } :=
    WavesState.update_ok w wavesPhys h1
  have e2 : WavesState.get_value { w with vars := wavesPhys w.vars } waveAngleName = .ok a :=
    WavesState.get_value_angle _ a h1 ha
  have e3 : c.set_value waveHeightName (NdArray.scalar 1.5) =
      .ok { c with vars := vars1 c.vars } :=
    CemState.set_value_ok c _ _ 0 { shape := [1], spacing := [], origin := [] }
      h3 height_mem varGrid_height (by rw [h4]; exact gridLookup0) rfl
  have e4 : CemState.set_value { c with vars := vars1 c.vars }
      wavePeriodName (NdArray.scalar 7) = .ok { c with vars := vars2 c.vars } :=
    CemState.set_value_ok _ _ _ 0 { shape := [1], spacing := [], origin := [] }
      h3 period_mem varGrid_period
      (by show alistLookup c.grids 0 = _; rw [h4]; exact gridLookup0) rfl
  have e5 : CemState.set_value { c with vars := vars2 c.vars }
      waveAngleName a = .ok { c with vars := vars3 a c.vars } :=
    CemState.set_value_ok _ _ _ 0 { shape := [1], spacing := [], origin := [] }
      h3 angle_mem varGrid_angle
      (by show alistLookup c.grids 0 = _; rw [h4]; exact gridLookup0) (by rw [haShape])
  have e6 : CemState.set_value { c with vars := vars3 a c.vars }
      qsName notebookQs = .ok { c with vars := vars4 a notebookQs c.vars } :=
    CemState.set_value_ok _ _ _ 2
      { shape := [100, 200], spacing := [200, 200], origin := [0, 0] }
      h3 qs_mem varGrid_qs
      (by show alistLookup c.grids 2 = _; rw [h4]; exact gridLookup2) rfl
  have e7 : CemState.update_until { c with vars := vars4 a notebookQs c.vars }
      cemPhys (t : ℚ) =
      .ok { c with vars := stepVars cemPhys a notebookQs c.vars,
                   lastTime := some (t : ℚ) } :=
    CemState.update_until_ok _ cemPhys (t : ℚ) h3 h5
  simp only [coupledStepD, e1, tagE_ok_eq, exceptD_bind_ok, e2, e3, e4, e5, e6, e7,
    exceptD_pure]

theorem foldlM_invD {β : Type} (f : β → Nat → Except DriverError β) (P : Nat → β → Prop) :
    ∀ (n s : Nat) (b : β), P s b →
      (∀ t b2, s ≤ t → t < s + n → P t b2 → ∃ b3, f b2 t = .ok b3 ∧ P (t + 1) b3) →
      ∃ b4, (List.range' s n).foldlM f b = .ok b4 ∧ P (s + n) b4 := by
  intro n
  induction n with
  | zero =>
    intro s b hP _
    exact ⟨b, rfl, hP⟩
  | succ n ih =>
    intro s b hP hstep
    obtain ⟨b1, hf, hP1⟩ := hstep s b le_rfl (by omega) hP
    obtain ⟨b2, hfold, hP2⟩ :=
      ih (s + 1) b1 hP1 (fun t b3 hle hlt hPt => hstep t b3 (by omega) (by omega) hPt)
    refine ⟨b2, ?_, ?_⟩
    · rw [List.range'_succ s n 1, List.foldlM_cons, hf, exceptD_bind_ok, hfold]
    · have hs : s + (n + 1) = s + 1 + n := by omega
      rw [hs]
      exact hP2

theorem foldlM_fail {β : Type} (f : β → Nat → Except DriverError β) (e : DriverError) :
    ∀ (k : Nat), ∀ (n s : Nat) (b b1 : β), k < n →
      (List.range' s k).foldlM f b = .ok b1 → f b1 (s + k) = .error e →
      (List.range' s n).foldlM f b = .error e := by
  intro k
  induction k with
  | zero =>
    intro n s b b1 hkn hpre hfail
    have hb : b = b1 := by
      rw [List.range'_zero, List.foldlM_nil] at hpre
      exact Except.ok.inj hpre
    subst hb
    obtain ⟨n2, rfl⟩ : ∃ n2, n = n2 + 1 := ⟨n - 1, by omega⟩
    rw [List.range'_succ s n2 1, List.foldlM_cons]
    rw [Nat.add_zero] at hfail
    rw [hfail, exceptD_bind_err]
  | succ k ih =>
    intro n s b b1 hkn hpre hfail
    obtain ⟨n2, rfl⟩ : ∃ n2, n = n2 + 1 := ⟨n - 1, by omega⟩
    rw [List.range'_succ s k 1, List.foldlM_cons] at hpre
    cases hx : f b s with
    | error e2 =>
      rw [hx, exceptD_bind_err] at hpre
      exact absurd hpre (by intro h; cases h)
    | ok bm =>
      rw [hx, exceptD_bind_ok] at hpre
      have hfail2 : f b1 (s + 1 + k) = .error e := by
        have hss : s + 1 + k = s + (k + 1) := by omega
        rw [hss]
        exact hfail
      have hrest := ih n2 (s + 1) bm b1 (by omega) hpre hfail2
      rw [List.range'_succ s n2 1, List.foldlM_cons, hx, exceptD_bind_ok]
      exact hrest

theorem depthShapeB_vars4 (a qs : NdArray) (v : VarStore) :
    depthShapeB (vars4 a qs v) = depthShapeB v := by
  unfold vars4 vars3 vars2 vars1
  rw [depthShapeB_alistSet _ _ _ qs_ne_depth, depthShapeB_alistSet _ _ _ angle_ne_depth,
    depthShapeB_alistSet _ _ _ period_ne_depth, depthShapeB_alistSet _ _ _ height_ne_depth]

theorem depthFiniteB_vars4 (a qs : NdArray) (v : VarStore) :
    depthFiniteB (vars4 a qs v) = depthFiniteB v := by
  unfold vars4 vars3 vars2 vars1
  rw [depthFiniteB_alistSet _ _ _ qs_ne_depth, depthFiniteB_alistSet _ _ _ angle_ne_depth,
    depthFiniteB_alistSet _ _ _ period_ne_depth, depthFiniteB_alistSet _ _ _ height_ne_depth]

theorem coupledStepD_ok (wavesPhys cemPhys : VarStore → VarStore) (t : Nat)
    (p : WavesState × CemState)
    (hw : preservesAngle wavesPhys)
    (hP : coupledInvP cemPhys t p) :
    ∃ p2, coupledStepD wavesPhys cemPhys notebookQs t p = .ok p2
      ∧ coupledInvP cemPhys (t + 1) p2 := by
  obtain ⟨hw1, hw2, hc1, hc2, hlt, hsh, hfin⟩ := hP
  have hg2 : wavesGoodB (wavesPhys p.1.vars) = true := hw p.1.vars hw2
  obtain ⟨a, ha, haShape⟩ := wavesGoodB_elim hg2
  have h5 : ∀ t0, p.2.lastTime = some t0 → ¬ (t : ℚ) < t0 := by
    intro t0 ht0
    rcases hlt with ⟨h0, hnone⟩ | ⟨k, hk, hsome⟩
    · rw [hnone] at ht0; cases ht0
    · rw [hsome] at ht0
      have hkt : t0 = (k : ℚ) := (Option.some.inj ht0).symm
      subst hkt
      have hkn : k ≤ t := by omega
      exact not_lt.mpr (Nat.cast_le.mpr hkn)
  have heq := coupledStepD_eq wavesPhys cemPhys t p.1 p.2 a hw1 ha haShape hc1 hc2 h5
  refine ⟨_, heq, ?_, ?_, hc1, hc2, ?_, ?_, ?_⟩
  · exact hw1
  · exact hg2
  · exact Or.inr ⟨t, rfl, rfl⟩
  · intro hs
    unfold stepVars
    apply hs
    rw [depthShapeB_vars4]
    exact hsh hs
  · intro hf
    unfold stepVars
    apply hf
    rw [depthFiniteB_vars4]
    exact hfin hf

theorem wavesStart_good : wavesGoodB wavesStart.vars = true := rfl

theorem cemStart_shape : depthShapeB cemStart.vars = true := rfl

theorem cemStart_finite : depthFiniteB cemStart.vars = true := by
  have hl : alistLookup cemStart.vars depthName =
      some { shape := [100, 200], data := List.replicate 20000 (FVal.finite 0) } := rfl
  unfold depthFiniteB
  rw [hl, List.all_eq_true]
  intro x hx
  rw [List.eq_of_mem_replicate hx]
  rfl

theorem runSteps_inv (wavesPhys cemPhys : VarStore → VarStore)
    (hw : preservesAngle wavesPhys) (n : Nat) :
    ∃ p, runSteps wavesPhys cemPhys notebookQs n (wavesStart, cemStart) = .ok p
      ∧ coupledInvP cemPhys n p := by
  have h0 : coupledInvP cemPhys 0 (wavesStart, cemStart) :=
    ⟨rfl, wavesStart_good, rfl, rfl, Or.inl ⟨rfl, rfl⟩,
      fun _ => cemStart_shape, fun _ => cemStart_finite⟩
  obtain ⟨p4, hfold, hP⟩ := foldlM_invD
    (fun q t => coupledStepD wavesPhys cemPhys notebookQs t q)
    (coupledInvP cemPhys) n 0 (wavesStart, cemStart) h0
    (fun t p2 _ _ hPt => coupledStepD_ok wavesPhys cemPhys t p2 hw hPt)
  refine ⟨p4, ?_, ?_⟩
  · show (List.range n).foldlM (fun q t => coupledStepD wavesPhys cemPhys notebookQs t q)
      (wavesStart, cemStart) = .ok p4
    rw [List.range_eq_range' n]
    exact hfold
  · have h00 : 0 + n = n := by omega
    rw [h00] at hP
    exact hP

theorem wavesSetup_eq : Waves.setup nbWavesConfig = .ok nbWavesConfig := by
  have hcond : -1 ≤ nbWavesConfig.angle_asymmetry ∧ nbWavesConfig.angle_asymmetry ≤ 1
      ∧ 0 ≤ nbWavesConfig.angle_highness_factor
      ∧ nbWavesConfig.angle_highness_factor ≤ 1 := by
    refine ⟨?_, ?_, ?_, ?_⟩ <;> norm_num [nbWavesConfig]
  simp [Waves.setup, hcond]

theorem cemSetup_eq : Cem.setup nbCemConfig = .ok nbCemConfig := by
  have hcond : 0 < nbCemConfig.number_of_rows ∧ 0 < nbCemConfig.number_of_cols
      ∧ 0 < nbCemConfig.grid_spacing := by
    refine ⟨?_, ?_, ?_⟩ <;> norm_num [nbCemConfig]
  simp [Cem.setup, hcond]

theorem coupledStart_eq : coupledStart = .ok (wavesStart, cemStart) := by
  unfold coupledStart
  rw [wavesSetup_eq, exceptD_bind_ok,
    show WavesState.new.init nbWavesConfig = .ok wavesStart from rfl, exceptD_bind_ok,
    cemSetup_eq, exceptD_bind_ok,
    show CemState.new.init nbCemConfig = .ok cemStart from rfl, exceptD_bind_ok,
    exceptD_pure]

theorem coupledRun_eq (wavesPhys cemPhys : VarStore → VarStore) :
    coupledRun wavesPhys cemPhys =
      runSteps wavesPhys cemPhys notebookQs 3000 (wavesStart, cemStart) := by
  unfold coupledRun
  rw [coupledStart_eq]

theorem coupledRun_ok (wavesPhys cemPhys : VarStore → VarStore)
    (hw : preservesAngle wavesPhys) :
    ∃ w c, coupledRun wavesPhys cemPhys = .ok (w, c)
      ∧ w.lifecycle = .initialized ∧ c.lifecycle = .initialized
      ∧ c.grids = cemGridsFor nbCemConfig
      ∧ c.lastTime = some ((2999 : Nat) : ℚ)
      ∧ (preservesDepthShape cemPhys → depthShapeB c.vars = true)
      ∧ (preservesDepthFinite cemPhys → depthFiniteB c.vars = true) := by
  obtain ⟨p, hrun, hw1, _, hc1, hc2, hlt, hsh, hfin⟩ := runSteps_inv wavesPhys cemPhys hw 3000
  refine ⟨p.1, p.2, ?_, hw1, hc1, hc2, ?_, hsh, hfin⟩
  · rw [coupledRun_eq]
    exact hrun
  · rcases hlt with ⟨h0, _⟩ | ⟨k, hk, hsome⟩
    · exact absurd h0 (by omega)
    · have hk2 : k = 2999 := by omega
      subst hk2
      exact hsome

theorem updateTimes_append (m : String) (l1 l2 : List Event) :
    updateTimes m (l1 ++ l2) = updateTimes m l1 ++ updateTimes m l2 := by
  unfold updateTimes
  exact List.filterMap_append l1 l2 _

theorem coupledStep_times (t : Nat) :
    updateTimes "cem" (coupledStepEvents t) = [t] := by
  simp [updateTimes, coupledStepEvents]

theorem soloStep_times (t : Nat) :
    updateTimes "cem" (soloStepEvents t) = [t] := by
  simp [updateTimes, soloStepEvents]

theorem stepsTrace_times (f : Nat → List Event)
    (hf : ∀ t, updateTimes "cem" (f t) = [t]) :
    ∀ n, updateTimes "cem" (stepsTrace f n) = List.range n := by
  intro n
  induction n with
  | zero => rfl
  | succ n ih =>
    show updateTimes "cem" (stepsTrace f n ++ f n) = List.range (n + 1)
    rw [updateTimes_append, ih, hf n, List.range_succ n]

theorem mem_stepsTrace {f : Nat → List Event} {e : Event} :
    ∀ {n}, e ∈ stepsTrace f n → ∃ t, t < n ∧ e ∈ f t := by
  intro n
  induction n with
  | zero => intro h; cases h
  | succ n ih =>
    intro h
    rcases List.mem_append.mp h with h1 | h2
    · obtain ⟨t, ht, hm⟩ := ih h1
      exact ⟨t, by omega, hm⟩
    · exact ⟨n, by omega, h2⟩

theorem finalize_not_in_coupledStep (m : String) (t : Nat) :
    Event.finalize m ∉ coupledStepEvents t := by
  simp [coupledStepEvents]

theorem init_not_in_coupledStep (m : String) (t : Nat) :
    Event.init m ∉ coupledStepEvents t := by
  simp [coupledStepEvents]

theorem stepsTrace_split (f : Nat → List Event) :
    ∀ n t, t < n → ∃ rest, stepsTrace f n = stepsTrace f t ++ f t ++ rest := by
  intro n
  induction n with
  | zero => intro t ht; exact absurd ht (by omega)
  | succ n ih =>
    intro t ht
    by_cases h : t = n
    · subst h
      exact ⟨[], by show stepsTrace f t ++ f t = _; rw [List.append_nil]⟩
    · obtain ⟨rest, hr⟩ := ih t (by omega)
      refine ⟨rest ++ f n, ?_⟩
      show stepsTrace f n ++ f n = stepsTrace f t ++ f t ++ (rest ++ f n)
      rw [hr]
      simp [List.append_assoc]

theorem coupledStepD_err (wavesPhys cemPhys : VarStore → VarStore) (qs : NdArray) (t : Nat)
    (p : WavesState × CemState) (e : DriverError)
    (h : coupledStepD wavesPhys cemPhys qs t p = .error e) :
    e.step = t ∧ (e.model = "waves" ∨ e.model = "cem") := by
  obtain ⟨w, c⟩ := p
  simp only [coupledStepD] at h
  cases h1 : w.update wavesPhys with
  | error e1 =>
    rw [h1, tagE_err_eq, exceptD_bind_err] at h
    obtain rfl := (Except.error.inj h).symm
    exact ⟨rfl, Or.inl rfl⟩
  | ok w2 =>
  rw [h1, tagE_ok_eq, exceptD_bind_ok] at h
  cases h2 : w2.get_value waveAngleName with
  | error e2 =>
    rw [h2, tagE_err_eq, exceptD_bind_err] at h
    obtain rfl := (Except.error.inj h).symm
    exact ⟨rfl, Or.inl rfl⟩
  | ok a =>
  rw [h2, tagE_ok_eq, exceptD_bind_ok] at h
  cases h3 : c.set_value waveHeightName (NdArray.scalar 1.5) with
  | error e3 =>
    rw [h3, tagE_err_eq, exceptD_bind_err] at h
    obtain rfl := (Except.error.inj h).symm
    exact ⟨rfl, Or.inr rfl⟩
  | ok c2 =>
  rw [h3, tagE_ok_eq, exceptD_bind_ok] at h
  cases h4 : c2.set_value wavePeriodName (NdArray.scalar 7) with
  | error e4 =>
    rw [h4, tagE_err_eq, exceptD_bind_err] at h
    obtain rfl := (Except.error.inj h).symm
    exact ⟨rfl, Or.inr rfl⟩
  | ok c3 =>
  rw [h4, tagE_ok_eq, exceptD_bind_ok] at h
  cases h5 : c3.set_value waveAngleName a with
  | error e5 =>
    rw [h5, tagE_err_eq, exceptD_bind_err] at h
    obtain rfl := (Except.error.inj h).symm
    exact ⟨rfl, Or.inr rfl⟩
  | ok c4 =>
  rw [h5, tagE_ok_eq, exceptD_bind_ok] at h
  cases h6 : c4.set_value qsName qs with
  | error e6 =>
    rw [h6, tagE_err_eq, exceptD_bind_err] at h
    obtain rfl := (Except.error.inj h).symm
    exact ⟨rfl, Or.inr rfl⟩
  | ok c5 =>
  rw [h6, tagE_ok_eq, exceptD_bind_ok] at h
  cases h7 : c5.update_until cemPhys (t : ℚ) with
  | error e7 =>
    rw [h7, tagE_err_eq, exceptD_bind_err] at h
    obtain rfl := (Except.error.inj h).symm
    exact ⟨rfl, Or.inr rfl⟩
  | ok c6 =>
    rw [h7, tagE_ok_eq, exceptD_bind_ok] at h
    cases h

theorem CemState.set_value_inv (s : CemState) (name : String) (arr : NdArray) (s2 : CemState)
    (h : s.set_value name arr = .ok s2) :
    s2.grids = s.grids ∧ s2.lifecycle = s.lifecycle ∧ s2.lastTime = s.lastTime := by
  unfold CemState.set_value at h
  split at h
  · split at h
    · split at h
      · split at h
        · split at h
          · obtain rfl := Except.ok.inj h
            exact ⟨rfl, rfl, rfl⟩
          · exact Except.noConfusion h
        · exact Except.noConfusion h
      · exact Except.noConfusion h
    · exact Except.noConfusion h
  · exact Except.noConfusion h

theorem CemState.update_until_inv (s : CemState) (phys : VarStore → VarStore) (t : ℚ)
    (s2 : CemState) (h : s.update_until phys t = .ok s2) :
    s2.grids = s.grids ∧ s2.lifecycle = s.lifecycle := by
  unfold CemState.update_until at h
  split at h
  · split at h
    · split at h
      · exact Except.noConfusion h
      · obtain rfl := Except.ok.inj h
        exact ⟨rfl, rfl⟩
    · obtain rfl := Except.ok.inj h
      exact ⟨rfl, rfl⟩
  · exact Except.noConfusion h

theorem CemState.var_grid_congr (s s2 : CemState) (h : s2.lifecycle = s.lifecycle) (m : String) :
    s2.var_grid m = s.var_grid m := by
  unfold CemState.var_grid
  rw [h]

theorem grid_shape_of (s : CemState) (h1 : s.lifecycle = .initialized)
    (h2 : s.grids = cemGridsFor nbCemConfig) :
    s.grid_shape 2 = .ok [100, 200] ∧ s.grid_spacing 2 = .ok [200, 200] := by
  constructor <;> simp [CemState.grid_shape, CemState.grid_spacing, h1, h2, gridLookup2]

theorem count_init_stepsTrace (m : String) :
    List.count (Event.init m) (stepsTrace coupledStepEvents 3000) = 0 := by
  rw [List.count_eq_zero]
  intro hmem
  obtain ⟨t, _, hm⟩ := mem_stepsTrace hmem
  exact init_not_in_coupledStep m t hm

theorem finalize_not_in_coupledTrace (m : String) : Event.finalize m ∉ coupledTrace := by
  intro hmem
  unfold coupledTrace at hmem
  rcases List.mem_append.mp hmem with h1 | h2
  · rcases List.mem_append.mp h1 with h3 | h4
    · simp at h3
    · obtain ⟨t, _, hm⟩ := mem_stepsTrace h4
      exact finalize_not_in_coupledStep m t hm
  · simp at h2

/-- C1: for the coastline model configured via `setup` with
`number_of_rows = 100`, `number_of_cols = 200`, `grid_spacing = 200.0`
followed by `initialize`, the depth variable's grid is grid 2, the grid shape
reported for that grid equals (100, 200), and the grid spacing equals
(200.0, 200.0). -/
theorem C1 : ∃ args s, Cem.setup nbCemConfig = .ok args
    ∧ CemState.new.init args = .ok s
    ∧ s.var_grid depthName = .ok 2
    ∧ s.grid_shape 2 = .ok [100, 200]
    ∧ s.grid_spacing 2 = .ok [200, 200] :=
  ⟨nbCemConfig, cemStart, cemSetup_eq, rfl, rfl, rfl, rfl⟩

/-- C2 counterexample: the claim asserts that in the notebook's coupled run
`finalize` is called on both the wave handle and the coastline handle after
the 3000 steps complete; in fact the notebook's coupled run contains no
`finalize` call on either handle. -/
theorem C2_counterexample :
    Event.finalize "waves" ∉ coupledTrace ∧ Event.finalize "cem" ∉ coupledTrace :=
  ⟨finalize_not_in_coupledTrace "waves", finalize_not_in_coupledTrace "cem"⟩

/-- C2 (amended): per the spec's Driver contract, after the N coupling steps
the Driver calls `finalize` on every model handle, which transitions both
handles to Finalized (proved for the spec-modelled driver-finish phase
applied after the notebook's 3000-step coupled run); the notebook's coupled
run itself, however, completes its 3000 steps without calling `finalize` on
either handle. -/
theorem C2 (wavesPhys cemPhys : VarStore → VarStore) (hw : preservesAngle wavesPhys) :
    (∃ p q, coupledRun wavesPhys cemPhys = .ok p ∧ driverFinish p = .ok q
        ∧ q.1.lifecycle = .finalized ∧ q.2.lifecycle = .finalized)
    ∧ Event.finalize "waves" ∉ coupledTrace
    ∧ Event.finalize "cem" ∉ coupledTrace := by
  refine ⟨?_, finalize_not_in_coupledTrace "waves", finalize_not_in_coupledTrace "cem"⟩
  obtain ⟨w, c, hrun, hw1, hc1, _, _, _, _⟩ := coupledRun_ok wavesPhys cemPhys hw
  refine ⟨(w, c), (wavesFinal, cemFinal c), hrun, ?_, rfl, rfl⟩
  unfold driverFinish
  rw [show w.finalize = .ok wavesFinal from by simp [WavesState.finalize, wavesFinal, hw1],
      exceptD_bind_ok,
      show c.finalize = .ok (cemFinal c) from by simp [CemState.finalize, cemFinal, hc1],
      exceptD_bind_ok, exceptD_pure]

/-- C2 witness: the amended statement instantiated with identity physics. -/
theorem C2_witness :
    (∃ p q, coupledRun (fun v => v) (fun v => v) = .ok p ∧ driverFinish p = .ok q
        ∧ q.1.lifecycle = .finalized ∧ q.2.lifecycle = .finalized)
    ∧ Event.finalize "waves" ∉ coupledTrace
    ∧ Event.finalize "cem" ∉ coupledTrace :=
  C2 (fun v => v) (fun v => v) (fun _ h => h)

/-- C3: `update_until` requires monotonically non-decreasing times across
calls — with last supplied time `t0` and an argument `t < t0` it fails with
`SequenceError`; both notebook loops supply the times 0, 1, ..., 2999 in
order (a monotone sequence), and accordingly the coupled run of the
spec-modelled handles completes with no error — the `SequenceError` branch is
never taken. -/
theorem C3 (s : CemState) (phys wavesPhys cemPhys : VarStore → VarStore) (t t0 : ℚ)
    (h1 : s.lifecycle = .initialized) (h2 : s.lastTime = some t0) (h3 : t < t0)
    (hw : preservesAngle wavesPhys) :
    s.update_until phys t = .error .sequenceError
    ∧ updateTimes "cem" coupledTrace = List.range 3000
    ∧ updateTimes "cem" soloTrace = List.range 3000
    ∧ List.Chain' (fun a b => a ≤ b) (updateTimes "cem" coupledTrace)
    ∧ ∃ p, coupledRun wavesPhys cemPhys = .ok p := by
  have hct : updateTimes "cem" coupledTrace = List.range 3000 := by
    unfold coupledTrace
    rw [updateTimes_append, updateTimes_append,
      stepsTrace_times coupledStepEvents coupledStep_times 3000]
    simp [updateTimes]
  have hst : updateTimes "cem" soloTrace = List.range 3000 := by
    unfold soloTrace
    rw [updateTimes_append, stepsTrace_times soloStepEvents soloStep_times 3000]
    simp [updateTimes]
  refine ⟨CemState.update_until_seq s phys t t0 h1 h2 h3, hct, hst, ?_, ?_⟩
  · rw [hct]
    exact ((List.pairwise_lt_range 3000).imp fun hab => Nat.le_of_lt hab).chain'
  · obtain ⟨w, c, hrun, _⟩ := coupledRun_ok wavesPhys cemPhys hw
    exact ⟨(w, c), hrun⟩

/-- C3 witness: a concrete non-monotone call fails with SequenceError, and the
notebook-time facts hold with identity physics. -/
theorem C3_witness :
    CemState.update_until
        { lifecycle := .initialized, grids := [], vars := [], lastTime := some 5 }
        (fun v => v) 3 = .error .sequenceError
    ∧ updateTimes "cem" coupledTrace = List.range 3000
    ∧ updateTimes "cem" soloTrace = List.range 3000
    ∧ List.Chain' (fun a b => a ≤ b) (updateTimes "cem" coupledTrace)
    ∧ ∃ p, coupledRun (fun v => v) (fun v => v) = .ok p :=
  C3 { lifecycle := .initialized, grids := [], vars := [], lastTime := some 5 }
    (fun v => v) (fun v => v) (fun v => v) 3 5 rfl rfl (by norm_num) (fun _ h => h)

/-- C4: within each coupling step the producing model is advanced before the
consuming model — for every step t of the notebook's coupled loop, the trace
contains that step's event block, in which the wave model's `update` (index 0)
and the read of its angle output (index 1) and the write of that angle into
the coastline model (index 4) all occur before the coastline model's
`update_until(t)` (index 6), and `update_until(t)` occurs nowhere earlier in
the block; the `pre` part of the decomposition carries exactly the earlier
steps' `update_until` times 0..t-1, identifying the block as step t's. -/
theorem C4 (t : Nat) (ht : t < 3000) :
    ∃ pre rest, coupledTrace = pre ++ coupledStepEvents t ++ rest
      ∧ updateTimes "cem" pre = List.range t
      ∧ (coupledStepEvents t)[0]? = some (.update "waves")
      ∧ (coupledStepEvents t)[1]? = some (.getValue "waves" waveAngleName)
      ∧ (coupledStepEvents t)[4]? = some (.setValue "cem" waveAngleName)
      ∧ (coupledStepEvents t)[6]? = some (.updateUntil "cem" t)
      ∧ ∀ i, i < 6 → (coupledStepEvents t)[i]? ≠ some (.updateUntil "cem" t) := by
  obtain ⟨rest, hr⟩ := stepsTrace_split coupledStepEvents 3000 t ht
  refine ⟨[Event.setup "waves", Event.init "waves", Event.setup "cem", Event.init "cem"]
      ++ stepsTrace coupledStepEvents t,
    rest ++ [Event.getValue "cem" depthName], ?_, ?_, rfl, rfl, rfl, rfl, ?_⟩
  · unfold coupledTrace
    rw [hr]
    simp [List.append_assoc]
  · rw [updateTimes_append, stepsTrace_times coupledStepEvents coupledStep_times t]
    simp [updateTimes]
  · intro i hi
    interval_cases i <;> simp [coupledStepEvents]

/-- C4 witness: the decomposition and ordering at the concrete step 0. -/
theorem C4_witness :
    ∃ pre rest, coupledTrace = pre ++ coupledStepEvents 0 ++ rest
      ∧ updateTimes "cem" pre = List.range 0
      ∧ (coupledStepEvents 0)[0]? = some (.update "waves")
      ∧ (coupledStepEvents 0)[1]? = some (.getValue "waves" waveAngleName)
      ∧ (coupledStepEvents 0)[4]? = some (.setValue "cem" waveAngleName)
      ∧ (coupledStepEvents 0)[6]? = some (.updateUntil "cem" 0)
      ∧ ∀ i, i < 6 → (coupledStepEvents 0)[i]? ≠ some (.updateUntil "cem" 0) :=
  C4 0 (by omega)

/-- C5: `set_value` with an array whose shape disagrees with the target
variable's grid shape fails with `ShapeMismatchError` (in the state-passing
embedding an error returns no new state, so the target variable's prior
values persist unchanged); the notebook's sediment-discharge array is
allocated with the shape of grid 2, `(100, 200)`, so every `set_value` of the
bedload variable in the coupled run satisfies the shape precondition and the
run completes with no error — the `ShapeMismatchError` branch is
unreachable. -/
theorem C5 (s : CemState) (name : String) (arr : NdArray) (g : Nat) (gi : GridInfo)
    (wavesPhys cemPhys : VarStore → VarStore)
    (h1 : s.lifecycle = .initialized) (h2 : name ∈ cemInputNames)
    (h3 : cemVarGrid name = some g) (h4 : alistLookup s.grids g = some gi)
    (h5 : arr.shape ≠ gi.shape)
    (hw : preservesAngle wavesPhys) :
    s.set_value name arr = .error .shapeMismatchError
    ∧ notebookQs.shape = [100, 200]
    ∧ cemStart.grid_shape 2 = .ok [100, 200]
    ∧ ∃ p, coupledRun wavesPhys cemPhys = .ok p := by
  refine ⟨?_, rfl, rfl, ?_⟩
  · simp [CemState.set_value, h1, h2, h3, h4, h5]
  · obtain ⟨w, c, hrun, _⟩ := coupledRun_ok wavesPhys cemPhys hw
    exact ⟨(w, c), hrun⟩

/-- C5 witness: writing a 1-element array into the bedload variable (grid
shape (100, 200)) fails with ShapeMismatchError, and the notebook facts hold
with identity physics. -/
theorem C5_witness :
    CemState.set_value cemStart qsName (NdArray.scalar 0) = .error .shapeMismatchError
    ∧ notebookQs.shape = [100, 200]
    ∧ cemStart.grid_shape 2 = .ok [100, 200]
    ∧ ∃ p, coupledRun (fun v => v) (fun v => v) = .ok p :=
  C5 cemStart qsName (NdArray.scalar 0) 2
    { shape := [100, 200], spacing := [200, 200], origin := [0, 0] }
    (fun v => v) (fun v => v) rfl qs_mem varGrid_qs gridLookup2 (by decide) (fun _ h => h)

/-- C6: the lifecycle is Uninitialized → Initialized → Finalized: a fresh
handle is Uninitialized; `setup` followed by `initialize` transitions it to
Initialized; a second `initialize` on the same handle fails with
`LifecycleError`; after `finalize` every model-handle operation fails with
`LifecycleError`; and in the notebook's coupled run each handle is
initialized exactly once, immediately after its `setup`. -/
theorem C6 (args : CemConfig) (s : CemState)
    (h : CemState.new.init args = .ok s) :
    CemState.new.lifecycle = .uninitialized
    ∧ s.lifecycle = .initialized
    ∧ s.init args = .error .lifecycleError
    ∧ (∀ sF, s.finalize = .ok sF →
        sF.lifecycle = .finalized
        ∧ sF.init args = .error .lifecycleError
        ∧ sF.update_until (fun v => v) 0 = .error .lifecycleError
        ∧ sF.get_value depthName = .error .lifecycleError
        ∧ sF.set_value depthName (NdArray.scalar 0) = .error .lifecycleError
        ∧ sF.finalize = .error .lifecycleError
        ∧ sF.grid_shape 2 = .error .lifecycleError
        ∧ sF.grid_spacing 2 = .error .lifecycleError
        ∧ sF.var_grid depthName = .error .lifecycleError)
    ∧ List.count (Event.init "cem") coupledTrace = 1
    ∧ List.count (Event.init "waves") coupledTrace = 1
    ∧ ∃ pre post, coupledTrace = pre ++ [Event.setup "cem", Event.init "cem"] ++ post := by
  have h2 : CemState.new.init args = .ok (cemInitFor args) := rfl
  rw [h2] at h
  obtain rfl := Except.ok.inj h
  refine ⟨rfl, rfl, rfl, ?_, ?_, ?_, ?_⟩
  · intro sF hF
    have hF2 : CemState.finalize (cemInitFor args) = .ok (cemFinalFor args) := rfl
    rw [hF2] at hF
    obtain rfl := Except.ok.inj hF
    exact ⟨rfl, rfl, rfl, rfl, rfl, rfl, rfl, rfl, rfl⟩
  · have hmid := count_init_stepsTrace "cem"
    unfold coupledTrace
    rw [List.count_append, List.count_append, hmid]
    decide
  · have hmid := count_init_stepsTrace "waves"
    unfold coupledTrace
    rw [List.count_append, List.count_append, hmid]
    decide
  · refine ⟨[Event.setup "waves", Event.init "waves"],
      stepsTrace coupledStepEvents 3000 ++ [Event.getValue "cem" depthName], ?_⟩
    unfold coupledTrace
    simp [List.append_assoc]

/-- C6 witness: the lifecycle facts at the notebook's configuration. -/
theorem C6_witness :
    CemState.new.lifecycle = .uninitialized
    ∧ cemStart.lifecycle = .initialized
    ∧ cemStart.init nbCemConfig = .error .lifecycleError
    ∧ (∀ sF, cemStart.finalize = .ok sF →
        sF.lifecycle = .finalized
        ∧ sF.init nbCemConfig = .error .lifecycleError
        ∧ sF.update_until (fun v => v) 0 = .error .lifecycleError
        ∧ sF.get_value depthName = .error .lifecycleError
        ∧ sF.set_value depthName (NdArray.scalar 0) = .error .lifecycleError
        ∧ sF.finalize = .error .lifecycleError
        ∧ sF.grid_shape 2 = .error .lifecycleError
        ∧ sF.grid_spacing 2 = .error .lifecycleError
        ∧ sF.var_grid depthName = .error .lifecycleError)
    ∧ List.count (Event.init "cem") coupledTrace = 1
    ∧ List.count (Event.init "waves") coupledTrace = 1
    ∧ ∃ pre post, coupledTrace = pre ++ [Event.setup "cem", Event.init "cem"] ++ post :=
  C6 nbCemConfig cemStart rfl

/-- C7: once a model is initialized its grid metadata is fixed for the
lifetime of the handle: `set_value` and `update_until` leave the grid table
and the variable-to-grid mapping unchanged, `grid_shape(2)` and
`grid_spacing(2)` return (100, 200) and (200.0, 200.0) before the stepping
loop and after any number k of coupled steps, and every variable name maps to
the same grid id throughout the run. -/
theorem C7 (s : CemState) (nm : String) (a : NdArray) (s2 : CemState)
    (phys wavesPhys cemPhys : VarStore → VarStore) (t : ℚ) (s3 : CemState) (k : Nat)
    (hset : s.set_value nm a = .ok s2)
    (hupd : s.update_until phys t = .ok s3)
    (hw : preservesAngle wavesPhys) :
    s2.grids = s.grids ∧ (∀ m, s2.var_grid m = s.var_grid m)
    ∧ s3.grids = s.grids ∧ (∀ m, s3.var_grid m = s.var_grid m)
    ∧ cemStart.grid_shape 2 = .ok [100, 200]
    ∧ cemStart.grid_spacing 2 = .ok [200, 200]
    ∧ ∃ p, runSteps wavesPhys cemPhys notebookQs k (wavesStart, cemStart) = .ok p
        ∧ p.2.grid_shape 2 = .ok [100, 200]
        ∧ p.2.grid_spacing 2 = .ok [200, 200]
        ∧ ∀ m, p.2.var_grid m = cemStart.var_grid m := by
  obtain ⟨hg2, hl2, _⟩ := CemState.set_value_inv s nm a s2 hset
  obtain ⟨hg3, hl3⟩ := CemState.update_until_inv s phys t s3 hupd
  obtain ⟨p, hrun, _, _, hc1, hc2, _, _, _⟩ := runSteps_inv wavesPhys cemPhys hw k
  obtain ⟨hsh, hsp⟩ := grid_shape_of p.2 hc1 hc2
  exact ⟨hg2, fun m => CemState.var_grid_congr s s2 hl2 m, hg3,
    fun m => CemState.var_grid_congr s s3 hl3 m, rfl, rfl, p, hrun, hsh, hsp,
    fun m => CemState.var_grid_congr cemStart p.2 (by rw [hc1]; rfl) m⟩

/-- C7 witness: grid-metadata constancy at a concrete write, a concrete
update, and the full 3000-step run with identity physics. -/
theorem C7_witness :
    cemStartH.grids = cemStart.grids ∧ (∀ m, cemStartH.var_grid m = cemStart.var_grid m)
    ∧ cemStartU.grids = cemStart.grids ∧ (∀ m, cemStartU.var_grid m = cemStart.var_grid m)
    ∧ cemStart.grid_shape 2 = .ok [100, 200]
    ∧ cemStart.grid_spacing 2 = .ok [200, 200]
    ∧ ∃ p, runSteps (fun v => v) (fun v => v) notebookQs 3000 (wavesStart, cemStart) = .ok p
        ∧ p.2.grid_shape 2 = .ok [100, 200]
        ∧ p.2.grid_spacing 2 = .ok [200, 200]
        ∧ ∀ m, p.2.var_grid m = cemStart.var_grid m :=
  C7 cemStart waveHeightName (NdArray.scalar 1.5) cemStartH (fun v => v) (fun v => v)
    (fun v => v) 0 cemStartU 3000 rfl rfl (fun _ h => h)

/-- C8: the driver fails fast — if the first t steps succeed and the step-t
coupling step errors with e, then the whole n-step run (for any n greater
than t) returns exactly that error: no operation of steps t+1..n-1 is
executed and the error is surfaced unmodified (no recovery or rollback is
attempted; in this state-passing embedding an error carries no new state, so
the coupled state is whatever the failing step left it as), and the error
names the originating model and carries step index t. -/
theorem C8 (wavesPhys cemPhys : VarStore → VarStore) (qs : NdArray)
    (n t : Nat) (p0 p1 : WavesState × CemState) (e : DriverError)
    (hlt : t < n)
    (hpre : runSteps wavesPhys cemPhys qs t p0 = .ok p1)
    (hfail : coupledStepD wavesPhys cemPhys qs t p1 = .error e) :
    runSteps wavesPhys cemPhys qs n p0 = .error e
    ∧ e.step = t ∧ (e.model = "waves" ∨ e.model = "cem") := by
  refine ⟨?_, coupledStepD_err wavesPhys cemPhys qs t p1 e hfail⟩
  show (List.range n).foldlM (fun q t2 => coupledStepD wavesPhys cemPhys qs t2 q) p0 =
    .error e
  rw [List.range_eq_range' n]
  refine foldlM_fail _ e t n 0 p0 p1 hlt ?_ ?_
  · show (List.range' 0 t).foldlM (fun q t2 => coupledStepD wavesPhys cemPhys qs t2 q) p0 =
      .ok p1
    rw [← List.range_eq_range' t]
    exact hpre
  · show coupledStepD wavesPhys cemPhys qs (0 + t) p1 = .error e
    rw [Nat.zero_add]
    exact hfail

/-- C8 witness: a wave handle whose angle variable is missing makes step 0
fail with UnknownVariableError; the 2-step driver run returns that error,
tagged with the wave model and step 0. -/
theorem C8_witness :
    runSteps (fun v => v) (fun v => v) (NdArray.scalar 0) 2
        ({ lifecycle := .initialized, vars := [] }, CemState.new) =
      .error { model := "waves", step := 0, err := .unknownVariableError }
    ∧ DriverError.step { model := "waves", step := 0, err := .unknownVariableError } = 0
    ∧ (DriverError.model { model := "waves", step := 0, err := .unknownVariableError } = "waves"
        ∨ DriverError.model { model := "waves", step := 0, err := .unknownVariableError } = "cem") :=
  C8 (fun v => v) (fun v => v) (NdArray.scalar 0) 2 0
    ({ lifecycle := .initialized, vars := [] }, CemState.new)
    ({ lifecycle := .initialized, vars := [] }, CemState.new)
    { model := "waves", step := 0, err := .unknownVariableError }
    (by omega) rfl rfl

/-- C9: after the 3000-step coupled run with constant wave height 1.5 and
period 7.0 set each step, the coastline model's sea_water__depth variable
still reads back with its original grid shape (100, 200), and — under the
spec's hypothesis that the external physics is stable (here: the physics step
preserves the depth variable's shape and the finiteness of its values) —
every element of the returned depth array is finite (no NaN or Inf). -/
theorem C9 (wavesPhys cemPhys : VarStore → VarStore)
    (hw : preservesAngle wavesPhys)
    (hs : preservesDepthShape cemPhys)
    (hf : preservesDepthFinite cemPhys) :
    ∃ w c d, coupledRun wavesPhys cemPhys = .ok (w, c)
      ∧ c.get_value depthName = .ok d
      ∧ d.shape = [100, 200]
      ∧ d.data.all FVal.isFinite = true := by
  obtain ⟨w, c, hrun, _, hc1, _, _, hsh, hfin⟩ := coupledRun_ok wavesPhys cemPhys hw
  obtain ⟨d, hld, hdshape⟩ := depthShapeB_elim (hsh hs)
  obtain ⟨d2, hld2, hdfin⟩ := depthFiniteB_elim (hfin hf)
  have hdd : d2 = d := by
    rw [hld] at hld2
    exact (Option.some.inj hld2).symm
  subst hdd
  exact ⟨w, c, d2, hrun, CemState.get_value_ok c depthName d2 hc1 depth_out hld,
    hdshape, hdfin⟩

/-- C9 witness: the statement instantiated with identity physics, which
preserves the angle variable, the depth shape, and depth finiteness. -/
theorem C9_witness :
    ∃ w c d, coupledRun (fun v => v) (fun v => v) = .ok (w, c)
      ∧ c.get_value depthName = .ok d
      ∧ d.shape = [100, 200]
      ∧ d.data.all FVal.isFinite = true :=
  C9 (fun v => v) (fun v => v) (fun _ h => h) (fun _ h => h) (fun _ h => h)

/-- C10: `avulse_river` wraps against the hard-coded constant 200, not the
supplied bounds — treating the random perturbation d as an input, with both
bounds supplied it returns (x+d)-200 when x+d is at least 200, 200+(x+d)
when x+d is negative, and x+d otherwise; so for every x+d in [-200, 400) the
result lies in [0, 200), while for an x_max other than 200 the result can
exceed x_max. -/
theorem C10 (x d lo hi : ℚ) :
    (200 ≤ x + d → avulse_river x d (some lo) (some hi) = x + d - 200)
    ∧ (x + d < 0 → avulse_river x d (some lo) (some hi) = 200 + (x + d))
    ∧ (0 ≤ x + d → x + d < 200 → avulse_river x d (some lo) (some hi) = x + d)
    ∧ (-200 ≤ x + d → x + d < 400 →
        0 ≤ avulse_river x d (some lo) (some hi)
        ∧ avulse_river x d (some lo) (some hi) < 200)
    ∧ (∃ y e lo2 hi2 : ℚ, hi2 ≠ 200 ∧ avulse_river y e (some lo2) (some hi2) > hi2) := by
  have key : avulse_river x d (some lo) (some hi) =
      if (if 200 ≤ x + d then x + d - 200 else x + d) < 0
      then 200 + (if 200 ≤ x + d then x + d - 200 else x + d)
      else (if 200 ≤ x + d then x + d - 200 else x + d) := rfl
  refine ⟨?_, ?_, ?_, ?_, ?_⟩
  · intro h
    rw [key]
    split_ifs <;> linarith
  · intro h
    rw [key]
    split_ifs <;> linarith
  · intro h h2
    rw [key]
    split_ifs <;> linarith
  · intro h h2
    rw [key]
    split_ifs <;> constructor <;> linarith
  · refine ⟨0, 150, 0, 100, by norm_num, ?_⟩
    show avulse_river 0 150 (some 0) (some 100) > 100
    unfold avulse_river
    norm_num

/-- C10 witness: the three regimes of the wrap evaluated at concrete
positions. -/
theorem C10_witness :
    avulse_river 0 250 (some 0) (some 200) = 0 + 250 - 200
    ∧ avulse_river 0 (-50) (some 0) (some 200) = 200 + (0 + -50)
    ∧ avulse_river 0 50 (some 0) (some 200) = 0 + 50 :=
  ⟨(C10 0 250 0 200).1 (by norm_num),
   (C10 0 (-50) 0 200).2.1 (by norm_num),
   (C10 0 50 0 200).2.2.1 (by norm_num) (by norm_num)⟩
